import Mathlib

/-
  Verification development for the Discord agentic research bot.

  Shallow embedding of:
  - parallel_research_agent.py (query extraction lines 310-336, fallback 338-345,
    search tool wrapper `searxng_search` lines 76-99, sequential orchestration loop 347-427,
    final report assembly 429-511);
  - searxng_client.py (`search`/`_format_results` lines 44-139, `scrape_url` 141-178,
    `search_and_scrape` 180-238);
  - web_search_agent.py (`WebSearchAgent.search` source collection lines 94-102 and
    Sources append lines 148-151).

  External effects (HTTP responses, LLM generations, scheduler outcomes) are oracle
  parameters; all pure data flow is modelled executably.
-/

namespace ResearchBot

/-! ## JSON values, modelling the shapes `json.loads` produces.
Numbers keep their lexeme: no claim inspects numeric values. -/

inductive Json where
  | null
  | bool (b : Bool)
  | num (lexeme : String)
  | str (s : String)
  | arr (elems : List Json)
  | obj (members : List (String × Json))

/-- Python dict construction: a later duplicate key overwrites an earlier one,
so key lookup prefers the last binding. -/
def lookupLast (kvs : List (String × Json)) (k : String) : Option Json :=
  match kvs with
  | [] => none
  | (k0, v) :: rest =>
    match lookupLast rest k with
    | some r => some r
    | none => if k0 = k then some v else none

def Json.getKey : Json → String → Option Json
  | .obj ms, k => lookupLast ms k
  | _, _ => none

/-! ## A JSON parser modelling Python `json.loads` on the standard grammar
(strict mode: control characters are rejected inside strings; the whole input,
modulo surrounding JSON whitespace, must be one value). -/

def isJsonWs (c : Char) : Bool :=
  c = ' ' || c = '\t' || c = '\n' || c = '\r'

def skipWs (cs : List Char) : List Char := cs.dropWhile isJsonWs

def isDigitCh (c : Char) : Bool := '0' ≤ c && c ≤ '9'

/-- Value of one hexadecimal digit, by code point: `0`-`9`, `a`-`f`, `A`-`F`. -/
def hexVal (c : Char) : Option Nat :=
  let n := c.toNat
  if 48 ≤ n && n ≤ 57 then some (n - 48)
  else if 97 ≤ n && n ≤ 102 then some (n - 87)
  else if 65 ≤ n && n ≤ 70 then some (n - 55)
  else none

def parseStringBody (fuel : Nat) (cs : List Char) (acc : List Char) :
    Option (String × List Char) :=
  match fuel, cs with
  | 0, _ => none
  | _, [] => none
  | fuel + 1, c :: rest =>
    if c = '"' then some (String.mk acc.reverse, rest)
    else if c = '\\' then
      match rest with
      | [] => none
      | e :: rest2 =>
        if e = '"' then parseStringBody fuel rest2 ('"' :: acc)
        else if e = '\\' then parseStringBody fuel rest2 ('\\' :: acc)
        else if e = '/' then parseStringBody fuel rest2 ('/' :: acc)
        else if e = 'b' then parseStringBody fuel rest2 ('\x08' :: acc)
        else if e = 'f' then parseStringBody fuel rest2 ('\x0c' :: acc)
        else if e = 'n' then parseStringBody fuel rest2 ('\n' :: acc)
        else if e = 'r' then parseStringBody fuel rest2 ('\r' :: acc)
        else if e = 't' then parseStringBody fuel rest2 ('\t' :: acc)
        else if e = 'u' then
          match rest2 with
          | h1 :: h2 :: h3 :: h4 :: rest3 =>
            match hexVal h1, hexVal h2, hexVal h3, hexVal h4 with
            | some a, some b, some c2, some d =>
              parseStringBody fuel rest3
                (Char.ofNat (((a * 16 + b) * 16 + c2) * 16 + d) :: acc)
            | _, _, _, _ => none
          | _ => none
        else none
    else if c.toNat < 32 then none
    else parseStringBody fuel rest (c :: acc)

def parseFrac (cs : List Char) : Option (List Char × List Char) :=
  match cs with
  | '.' :: r =>
    let ds := r.takeWhile isDigitCh
    if ds.isEmpty then none else some ('.' :: ds, r.drop ds.length)
  | _ => some ([], cs)

def parseExp (cs : List Char) : Option (List Char × List Char) :=
  match cs with
  | c :: r =>
    if c = 'e' || c = 'E' then
      match r with
      | s :: r2 =>
        if s = '+' || s = '-' then
          let ds := r2.takeWhile isDigitCh
          if ds.isEmpty then none else some (c :: s :: ds, r2.drop ds.length)
        else
          let ds := r.takeWhile isDigitCh
          if ds.isEmpty then none else some (c :: ds, r.drop ds.length)
      | [] => none
    else some ([], cs)
  | [] => some ([], cs)

def parseNumber (cs : List Char) : Option (String × List Char) :=
  let mk := fun (neg digits : List Char) (rest : List Char) =>
    match parseFrac rest with
    | none => none
    | some (fr, r2) =>
      match parseExp r2 with
      | none => none
      | some (ex, r3) => some (String.mk (neg ++ digits ++ fr ++ ex), r3)
  match cs with
  | '-' :: c :: r =>
    if c = '0' then mk ['-'] [c] r
    else if isDigitCh c then
      let ds := r.takeWhile isDigitCh
      mk ['-'] (c :: ds) (r.drop ds.length)
    else none
  | c :: r =>
    if c = '0' then mk [] [c] r
    else if isDigitCh c then
      let ds := r.takeWhile isDigitCh
      mk [] (c :: ds) (r.drop ds.length)
    else none
  | [] => none

mutual

def parseValue (fuel : Nat) (cs : List Char) : Option (Json × List Char) :=
  match fuel with
  | 0 => none
  | fuel + 1 =>
    match skipWs cs with
    | [] => none
    | c :: rest =>
      if c = '"' then
        match parseStringBody (rest.length + 1) rest [] with
        | some (s, r) => some (.str s, r)
        | none => none
      else if c = '\x7b' then
        match parseObjRest fuel rest with
        | some (ms, r) => some (.obj ms, r)
        | none => none
      else if c = '[' then
        match parseArrRest fuel rest with
        | some (vs, r) => some (.arr vs, r)
        | none => none
      else if c = 't' then
        match rest with
        | 'r' :: 'u' :: 'e' :: r => some (.bool true, r)
        | _ => none
      else if c = 'f' then
        match rest with
        | 'a' :: 'l' :: 's' :: 'e' :: r => some (.bool false, r)
        | _ => none
      else if c = 'n' then
        match rest with
        | 'u' :: 'l' :: 'l' :: r => some (.null, r)
        | _ => none
      else
        match parseNumber (c :: rest) with
        | some (lx, r) => some (.num lx, r)
        | none => none

def parseObjRest (fuel : Nat) (cs : List Char) :
    Option (List (String × Json) × List Char) :=
  match fuel with
  | 0 => none
  | fuel + 1 =>
    match skipWs cs with
    | '\x7d' :: r => some ([], r)
    | _ => parseMemberSeq fuel cs

def parseMemberSeq (fuel : Nat) (cs : List Char) :
    Option (List (String × Json) × List Char) :=
  match fuel with
  | 0 => none
  | fuel + 1 =>
    match skipWs cs with
    | '"' :: rest =>
      match parseStringBody (rest.length + 1) rest [] with
      | none => none
      | some (k, r1) =>
        match skipWs r1 with
        | ':' :: r2 =>
          match parseValue fuel r2 with
          | none => none
          | some (v, r3) =>
            match skipWs r3 with
            | ',' :: r4 =>
              match parseMemberSeq fuel r4 with
              | none => none
              | some (ms, r5) => some ((k, v) :: ms, r5)
            | '\x7d' :: r4 => some ([(k, v)], r4)
            | _ => none
        | _ => none
    | _ => none

def parseArrRest (fuel : Nat) (cs : List Char) : Option (List Json × List Char) :=
  match fuel with
  | 0 => none
  | fuel + 1 =>
    match skipWs cs with
    | ']' :: r => some ([], r)
    | _ => parseElemSeq fuel cs

def parseElemSeq (fuel : Nat) (cs : List Char) : Option (List Json × List Char) :=
  match fuel with
  | 0 => none
  | fuel + 1 =>
    match parseValue fuel cs with
    | none => none
    | some (v, r1) =>
      match skipWs r1 with
      | ',' :: r2 =>
        match parseElemSeq fuel r2 with
        | none => none
        | some (vs, r3) => some (v :: vs, r3)
      | ']' :: r2 => some ([v], r2)
      | _ => none

end

/-- `json.loads`: parse the whole text as a single JSON value; trailing
whitespace allowed, anything else is a failure. -/
def parseJson (s : String) : Option Json :=
  match parseValue (4 * s.toList.length + 8) s.toList with
  | some (j, rest) => if (skipWs rest).isEmpty then some j else none
  | none => none

/-! ## Model of the regex search
`re.search(r'␣```json\s*({[\s\S]*?})\s*```|({[\s\S]*})', text)` used at
parallel_research_agent.py lines 313 and 389.  Python `re.search` semantics:
scan candidate start positions left to right and at each position try the
first alternative before the second; the first alternative's `[\s\S]*?` is
non-greedy (shortest content whose closing brace is followed by optional
whitespace and a closing fence) and the second alternative's `[\s\S]*` is
greedy (content extends to the last closing brace of the text). -/

def backquote : Char := '\x60'

def isPySpace (c : Char) : Bool :=
  c = ' ' || c = '\t' || c = '\n' || c = '\r' || c = '\x0b' || c = '\x0c'

def startsWithFence : List Char → Bool
  | c1 :: c2 :: c3 :: _ => c1 = backquote && c2 = backquote && c3 = backquote
  | _ => false

def fenceAfter (cs : List Char) : Bool :=
  startsWithFence (cs.dropWhile isPySpace)

/-- Non-greedy scan for the first closing brace that is followed by
(optional whitespace and) a closing fence; returns the group-1 content
including that closing brace. -/
def alt1Content : List Char → Option (List Char)
  | [] => none
  | c :: rest =>
    if c = '\x7d' && fenceAfter rest then some [c]
    else
      match alt1Content rest with
      | some tail => some (c :: tail)
      | none => none

/-- First alternative of the pattern, tried at one start position. -/
def matchAlt1 (cs : List Char) : Option (List Char) :=
  match cs with
  | c1 :: c2 :: c3 :: c4 :: c5 :: c6 :: c7 :: rest =>
    if c1 = backquote && c2 = backquote && c3 = backquote &&
        c4 = 'j' && c5 = 's' && c6 = 'o' && c7 = 'n' then
      match rest.dropWhile isPySpace with
      | c :: body =>
        if c = '\x7b' then
          match alt1Content body with
          | some content => some ('\x7b' :: content)
          | none => none
        else none
      | [] => none
    else none
  | _ => none

/-- Second alternative: a brace, greedy content up to the last closing brace. -/
def matchAlt2 (cs : List Char) : Option (List Char) :=
  match cs with
  | c :: rest =>
    if c = '\x7b' then
      match rest.reverse.dropWhile (fun d => d ≠ '\x7d') with
      | [] => none
      | tail => some ('\x7b' :: tail.reverse)
    else none
  | [] => none

/-- `re.search`: leftmost start position wins; at each position the fenced
alternative is tried before the bare-brace alternative.  Returns which group
matched (`true` for group 1) and the group text. -/
def searchFrom : List Char → Option (Bool × List Char)
  | [] => none
  | cs@(_ :: rest) =>
    match matchAlt1 cs with
    | some g => some (true, g)
    | none =>
      match matchAlt2 cs with
      | some g => some (false, g)
      | none => searchFrom rest

/-! ## Query extraction and planning
parallel_research_agent.py lines 310-345: regex-search the planner response,
`json.loads` the selected group, keep the `"queries"` list if the parse gives
a dict whose `"queries"` value is a list; every failure mode (no regex match,
parse error, missing key, non-list value, non-dict value) leaves `queries`
empty; there is no second attempt at parsing the whole text.  If no queries
were extracted, fall back to three queries derived from the research goal. -/

def extractQueries (response : String) : List Json :=
  match searchFrom response.toList with
  | none => []
  | some (_, g) =>
    match parseJson (String.mk g) with
    | none => []
    | some j =>
      match j.getKey "queries" with
      | some (Json.arr qs) => qs
      | _ => []

def fallbackQueries (goal : String) : List Json :=
  [Json.obj [("query", Json.str (goal ++ " overview"))],
   Json.obj [("query", Json.str (goal ++ " analysis"))],
   Json.obj [("query", Json.str (goal ++ " impact"))]]

def planQueries (goal response : String) : List Json :=
  if (extractQueries response).isEmpty then fallbackQueries goal
  else extractQueries response

/-! ## SearXNG client model (searxng_client.py)
HTTP traffic and the article library are external: each search attempt's
aggregator response and each page fetch outcome are oracle inputs; everything
the client computes from them is modelled exactly. -/

/-- Outcome of fetching one page, `scrape_url` lines 141-178.  `success=false`
with `error` set on any failure; nothing is propagated. -/
structure ScrapedContent where
  url : String
  title : Option String := none
  text : Option String := none
  authors : List String := []
  publish_date : Option String := none
  top_image : Option String := none
  success : Bool := false
  error : Option String := none

/-- One search-result row, `_format_results` lines 110-120. -/
structure OrganicEntry where
  title : String := ""
  link : String := ""
  snippet : String := ""
  source : String := ""
  position : Nat := 0
  scraped_content : Option ScrapedContent := none

/-- One raw result row of the aggregator's JSON. -/
structure RawResult where
  title : String := ""
  url : String := ""
  content : String := ""
  engine : String := ""

/-- The dict returned by `search`/`search_and_scrape`/`searxng_search`:
the success shape carries `organic`, the failure shape carries `error`
(`searxng_search` additionally sets `query` on its failure shapes). -/
structure SearchOutcome where
  organic : Option (List OrganicEntry) := none
  error : Option String := none
  query : Option String := none

/-- What one page fetch did: article downloaded and parsed, the
download/parse step raised, or something else raised. -/
inductive ScrapeEnv where
  | ok (title text : String) (authors : List String)
      (publish_date : Option String) (top_image : String)
  | downloadFail (msg : String)
  | otherFail (msg : String)

/-- `scrape_url`, lines 141-178: success record on a parsed article; a
download/parse exception is caught and prefixed "Article processing error: ";
any other exception is caught and reported verbatim; never raises. -/
def scrape_url (url : String) : ScrapeEnv → ScrapedContent
  | .ok t tx au pd ti =>
    { url := url, title := some t, text := some tx, authors := au,
      publish_date := pd, top_image := some ti, success := true }
  | .downloadFail m =>
    { url := url, error := some ("Article processing error: " ++ m), success := false }
  | .otherFail m =>
    { url := url, error := some m, success := false }

/-- One HTTP search attempt as seen by `search`, lines 70-97. -/
inductive AggResponse where
  | ok (results : List RawResult)
  | httpError (status : Nat)
  | connError
  | exn (msg : String)

def searxngInstance : String := "http://searxng:8080"

/-- `_format_results`, lines 99-139: reshape raw rows into organic entries,
truncated to `num_results`, with 1-based positions. -/
def formatAux (i : Nat) : List RawResult → List OrganicEntry
  | [] => []
  | r :: rest =>
    { title := r.title, link := r.url, snippet := r.content,
      source := r.engine, position := i + 1 } :: formatAux (i + 1) rest

def format_results (results : List RawResult) (num_results : Nat) : List OrganicEntry :=
  formatAux 0 (results.take num_results)

/-- `search`, lines 44-97: a 200 response is reshaped; a non-200 status, a
connection error or any other exception yields an error dict. -/
def searchRequest (resp : AggResponse) (num_results : Nat) : SearchOutcome :=
  match resp with
  | .ok rs => { organic := some (format_results rs num_results) }
  | .httpError s => { error := some ("Search failed with status code: " ++ toString s) }
  | .connError =>
    { error := some ("Cannot connect to SearXNG at " ++ searxngInstance ++
        ". Please check if the service is running.") }
  | .exn m => { error := some m }

/-- One slot of `asyncio.gather(..., return_exceptions=True)`: either the
`scrape_url` coroutine ran (it never raises) or the gathered task itself
yielded an exception. -/
inductive ScrapeAttempt where
  | ran (env : ScrapeEnv)
  | exn (msg : String)

/-- Lines 226-236: the scraped content attached to entry `i`, whose link was
the URL scraped: `scrape_url`'s record, or a synthesized failure record when
the gathered slot was an exception. -/
def gatherSlot (link : String) : ScrapeAttempt → ScrapedContent
  | .ran env => scrape_url link env
  | .exn m => { url := link, error := some m, success := false }

/-- Positional attachment loop of lines 226-236: entry `i` receives the
outcome of scraping `urls_to_scrape[i]`, which is that entry's own link. -/
def attachScrapes (att : Nat → ScrapeAttempt) : Nat → List OrganicEntry → List OrganicEntry
  | _, [] => []
  | i, e :: rest =>
    { e with scraped_content := some (gatherSlot e.link (att i)) } ::
      attachScrapes att (i + 1) rest

/-- Lines 191-200: take the primary attempt's outcome unless it is an error
or has zero organic entries, in which case take the fallback-engine attempt's
outcome (engine sampling is part of the oracle). -/
def searchSelect (primary fallback : AggResponse) (max_results : Nat) : SearchOutcome :=
  if (searchRequest primary max_results).error.isSome ||
      ((searchRequest primary max_results).organic.getD []).isEmpty then
    searchRequest fallback max_results
  else searchRequest primary max_results

/-- Lines 202-238: return an error outcome unchanged; with no URLs to scrape
return the search outcome unchanged; otherwise attach one scrape outcome per
organic entry, positionally. -/
def searchScrapePhase2 (sr : SearchOutcome) (att : Nat → ScrapeAttempt) : SearchOutcome :=
  if sr.error.isSome then sr
  else if (sr.organic.getD []).isEmpty then sr
  else { sr with organic := some (attachScrapes att 0 (sr.organic.getD [])) }

/-- `search_and_scrape`, lines 180-238. -/
def search_and_scrape (primary fallback : AggResponse) (att : Nat → ScrapeAttempt)
    (max_results : Nat) : SearchOutcome :=
  searchScrapePhase2 (searchSelect primary fallback max_results) att

/-! ## Search tool wrapper (parallel_research_agent.py lines 76-99) -/

/-- How the awaited `search_and_scrape` task ended under `asyncio.wait_for`. -/
inductive SearchCallOutcome where
  | completed (r : SearchOutcome)
  | timedOut
  | raised (msg : String)

/-- The timeout passed to `asyncio.wait_for` at line 92. -/
def searxng_search_timeout : Nat := 30

/-- `searxng_search`, lines 76-99: pass a completed result through; convert a
timeout into an error value naming the query; catch any other exception into
an error value; never raises. -/
def searxng_search (query : String) : SearchCallOutcome → SearchOutcome
  | .completed r => r
  | .timedOut =>
    { error := some ("Search timeout for query: " ++ query), query := some query }
  | .raised m => { error := some m, query := some query }

/-! ## Web search agent model (web_search_agent.py lines 94-151) -/

/-- Lines 94-99: collect the url of every organic entry whose scrape
succeeded (a missing `scraped_content` counts as failure; a falsy, i.e.
empty, url is skipped). -/
def collectSuccessUrls : List OrganicEntry → List String
  | [] => []
  | e :: rest =>
    match e.scraped_content with
    | some sc =>
      if sc.success && !sc.url.isEmpty then sc.url :: collectSuccessUrls rest
      else collectSuccessUrls rest
    | none => collectSuccessUrls rest

/-- `list(dict.fromkeys(urls))`, line 102: deduplicate keeping the first
occurrence of each url, in encounter order. -/
def dedupFirstAux (seen : List String) : List String → List String
  | [] => []
  | x :: xs =>
    if x ∈ seen then dedupFirstAux seen xs
    else x :: dedupFirstAux (x :: seen) xs

def dedupFirst (l : List String) : List String := dedupFirstAux [] l

/-- The url list rendered as the report's source list. -/
def webSourceUrls (organic : List OrganicEntry) : List String :=
  dedupFirst (collectSuccessUrls organic)

/-- The markdown block lines 149-150 build, as a function of the search
results alone. -/
def sourcesBlock (organic : List OrganicEntry) : String :=
  if (webSourceUrls organic).isEmpty then ""
  else "\n\n## Sources\n" ++
    String.intercalate "\n" ((webSourceUrls organic).map (fun u => "- " ++ u))

/-- Lines 148-151: after the generation call produced `final_response`, append
the sources list if and only if it is non-empty. -/
def webSearchCompose (organic : List OrganicEntry) (final_response : String) : String :=
  if (webSourceUrls organic).isEmpty then final_response
  else final_response ++ ("\n\n## Sources\n" ++
    String.intercalate "\n" ((webSourceUrls organic).map (fun u => "- " ++ u)))

/-- Ascending lexicographic comparison of strings by code point, the order
Python's `sorted` uses on `str`. -/
def lexLe : List Char → List Char → Bool
  | [], _ => true
  | _ :: _, [] => false
  | a :: as, b :: bs => if a < b then true else if a = b then lexLe as bs else false

def strLe (a b : String) : Bool := lexLe a.data b.data

/-- A url list is sorted ascending lexicographically. -/
def sortedAsc : List String → Bool
  | [] => true
  | [_] => true
  | a :: b :: rest => strLe a b && sortedAsc (b :: rest)

/-! ## Orchestration order (parallel_research_agent.py lines 286-511)
The control flow of `run_parallel_research` as the sequence of its awaited
stages: the query-generation call (lines 287-307) is awaited first; then the
per-query loop (lines 349-427) awaits each search agent run to completion and
extends `all_learnings` with its extracted learnings before creating the next
agent; finally the report-generation call (lines 481-504) is awaited.  Worker
`i`'s run and the aggregation of its learnings therefore complete before
worker `i+1` is even created. -/

inductive PhaseEvent where
  | plan
  | workerStart (i : Nat)
  | workerEnd (i : Nat)
  | aggregate (i : Nat)
  | synthesize
deriving DecidableEq

/-- Events of the per-query loop for workers `0 .. n-1`, in program order. -/
def workerSeq : Nat → List PhaseEvent
  | 0 => []
  | n + 1 => workerSeq n ++ [.workerStart n, .workerEnd n, .aggregate n]

/-- The complete stage sequence of one `run_parallel_research` run with `n`
planned queries. -/
def researchTrace (n : Nat) : List PhaseEvent :=
  .plan :: (workerSeq n ++ [.synthesize])

/-! ## Helper lemmas -/

theorem mem_dedupFirstAux : ∀ (l seen : List String) (u : String),
    u ∈ dedupFirstAux seen l → u ∈ l := by
  intro l
  induction l with
  | nil => intro seen u h; simp [dedupFirstAux] at h
  | cons x xs ih =>
    intro seen u h
    by_cases hx : x ∈ seen
    · simp [dedupFirstAux, hx] at h
      exact List.mem_cons_of_mem _ (ih seen u h)
    · simp [dedupFirstAux, hx] at h
      rcases h with h | h
      · simp [h]
      · exact List.mem_cons_of_mem _ (ih _ u h)

theorem not_mem_seen_dedupFirstAux : ∀ (l seen : List String) (u : String),
    u ∈ dedupFirstAux seen l → u ∉ seen := by
  intro l
  induction l with
  | nil => intro seen u h; simp [dedupFirstAux] at h
  | cons x xs ih =>
    intro seen u h
    by_cases hx : x ∈ seen
    · simp [dedupFirstAux, hx] at h
      exact ih seen u h
    · simp [dedupFirstAux, hx] at h
      rcases h with h | h
      · subst h; exact hx
      · intro hs
        exact ih _ u h (List.mem_cons_of_mem _ hs)

theorem nodup_dedupFirstAux : ∀ (l seen : List String), (dedupFirstAux seen l).Nodup := by
  intro l
  induction l with
  | nil => intro seen; simp [dedupFirstAux]
  | cons x xs ih =>
    intro seen
    by_cases hx : x ∈ seen
    · simp [dedupFirstAux, hx]; exact ih seen
    · simp only [dedupFirstAux, hx, if_false]
      refine List.nodup_cons.mpr ⟨?_, ih _⟩
      intro hmem
      exact not_mem_seen_dedupFirstAux xs (x :: seen) x hmem (List.mem_cons_self _ _)

theorem sublist_dedupFirstAux : ∀ (l seen : List String), (dedupFirstAux seen l).Sublist l := by
  intro l
  induction l with
  | nil => intro seen; simp [dedupFirstAux]
  | cons x xs ih =>
    intro seen
    by_cases hx : x ∈ seen
    · simp only [dedupFirstAux, hx, if_true]
      exact (ih seen).cons x
    · simp only [dedupFirstAux, hx, if_false]
      exact (ih (x :: seen)).cons₂ x

theorem mem_collectSuccessUrls : ∀ (organic : List OrganicEntry) (u : String),
    u ∈ collectSuccessUrls organic →
    ∃ e ∈ organic, ∃ sc, e.scraped_content = some sc ∧ sc.success = true ∧ sc.url = u := by
  intro organic
  induction organic with
  | nil => intro u h; simp [collectSuccessUrls] at h
  | cons e rest ih =>
    intro u h
    rcases hsc : e.scraped_content with _ | sc
    · rw [collectSuccessUrls, hsc] at h
      rcases ih u h with ⟨e2, he2, sc2, h1, h2, h3⟩
      exact ⟨e2, List.mem_cons_of_mem _ he2, sc2, h1, h2, h3⟩
    · rw [collectSuccessUrls, hsc] at h
      have h2 : u ∈ (if (sc.success && !sc.url.isEmpty) = true then
          sc.url :: collectSuccessUrls rest else collectSuccessUrls rest) := h
      by_cases hc : sc.success && !sc.url.isEmpty
      · rw [if_pos hc] at h2
        rcases List.mem_cons.mp h2 with h3 | h3
        · refine ⟨e, List.mem_cons_self _ _, sc, hsc, ?_, h3.symm⟩
          exact ((Bool.and_eq_true _ _).mp hc).1
        · rcases ih u h3 with ⟨e2, he2, sc2, g1, g2, g3⟩
          exact ⟨e2, List.mem_cons_of_mem _ he2, sc2, g1, g2, g3⟩
      · rw [if_neg hc] at h2
        rcases ih u h2 with ⟨e2, he2, sc2, g1, g2, g3⟩
        exact ⟨e2, List.mem_cons_of_mem _ he2, sc2, g1, g2, g3⟩

theorem attachScrapes_get? (att : Nat → ScrapeAttempt) :
    ∀ (l : List OrganicEntry) (j i : Nat),
    (attachScrapes att j l).get? i =
      (l.get? i).map (fun e =>
        { e with scraped_content := some (gatherSlot e.link (att (j + i))) }) := by
  intro l
  induction l with
  | nil => intro j i; simp [attachScrapes]
  | cons e rest ih =>
    intro j i
    match i with
    | 0 => simp [attachScrapes]
    | i + 1 =>
      simp only [attachScrapes, List.get?_cons_succ]
      rw [ih (j + 1) i]
      have : j + 1 + i = j + (i + 1) := by omega
      rw [this]

theorem searchRequest_shape (resp : AggResponse) (n : Nat) :
    ((searchRequest resp n).organic.isSome ∧ (searchRequest resp n).error = none) ∨
    ((searchRequest resp n).error.isSome ∧ (searchRequest resp n).organic = none) := by
  cases resp <;> simp [searchRequest]

theorem searchSelect_shape (p f : AggResponse) (n : Nat) :
    ((searchSelect p f n).organic.isSome ∧ (searchSelect p f n).error = none) ∨
    ((searchSelect p f n).error.isSome ∧ (searchSelect p f n).organic = none) := by
  unfold searchSelect
  split
  · exact searchRequest_shape f n
  · exact searchRequest_shape p n

theorem search_and_scrape_shape (p f : AggResponse) (att : Nat → ScrapeAttempt) (n : Nat) :
    ((search_and_scrape p f att n).organic.isSome ∧ (search_and_scrape p f att n).error = none) ∨
    ((search_and_scrape p f att n).error.isSome ∧ (search_and_scrape p f att n).organic = none) := by
  unfold search_and_scrape searchScrapePhase2
  rcases searchSelect_shape p f n with ⟨h1, h2⟩ | ⟨h1, h2⟩
  · rw [h2]
    simp only [Option.isSome_none, Bool.false_eq_true, if_false]
    split
    · exact Or.inl ⟨h1, h2⟩
    · exact Or.inl ⟨rfl, rfl⟩
  · rw [if_pos h1]
    exact Or.inr ⟨h1, h2⟩

theorem gatherSlot_url (link : String) (a : ScrapeAttempt) : (gatherSlot link a).url = link := by
  cases a with
  | ran env => cases env <;> rfl
  | exn m => rfl

theorem workerSeq_length (n : Nat) : (workerSeq n).length = 3 * n := by
  induction n with
  | zero => rfl
  | succ n ih => simp [workerSeq, ih]; omega

theorem workerSeq_get? (n i : Nat) (h : i < n) :
    (workerSeq n).get? (3 * i) = some (.workerStart i) ∧
    (workerSeq n).get? (3 * i + 1) = some (.workerEnd i) ∧
    (workerSeq n).get? (3 * i + 2) = some (.aggregate i) := by
  induction n with
  | zero => omega
  | succ n ih =>
    rcases Nat.lt_succ_iff_lt_or_eq.mp h with h2 | h2
    · have hl := workerSeq_length n
      refine ⟨?_, ?_, ?_⟩ <;>
        rw [workerSeq, List.get?_append (by omega)]
      · exact (ih h2).1
      · exact (ih h2).2.1
      · exact (ih h2).2.2
    · subst h2
      have hl := workerSeq_length i
      refine ⟨?_, ?_, ?_⟩ <;>
        rw [workerSeq, List.get?_append_right (by omega)]
      · rw [hl]; simp
      · rw [hl]; simp
      · rw [hl]; simp

theorem researchTrace_get? (n i : Nat) (h : i < n) :
    (researchTrace n).get? 0 = some .plan ∧
    (researchTrace n).get? (3 * n + 1) = some .synthesize ∧
    (researchTrace n).get? (3 * i + 1) = some (.workerStart i) ∧
    (researchTrace n).get? (3 * i + 2) = some (.workerEnd i) ∧
    (researchTrace n).get? (3 * i + 3) = some (.aggregate i) := by
  have hl := workerSeq_length n
  refine ⟨rfl, ?_, ?_, ?_, ?_⟩
  · show (workerSeq n ++ [PhaseEvent.synthesize]).get? (3 * n) = some PhaseEvent.synthesize
    rw [List.get?_append_right (by omega), hl]
    simp
  · show (workerSeq n ++ [PhaseEvent.synthesize]).get? (3 * i) = some (PhaseEvent.workerStart i)
    rw [List.get?_append (by omega)]
    exact (workerSeq_get? n i h).1
  · show (workerSeq n ++ [PhaseEvent.synthesize]).get? (3 * i + 1) = some (PhaseEvent.workerEnd i)
    rw [List.get?_append (by omega)]
    exact (workerSeq_get? n i h).2.1
  · show (workerSeq n ++ [PhaseEvent.synthesize]).get? (3 * i + 2) = some (PhaseEvent.aggregate i)
    rw [List.get?_append (by omega)]
    exact (workerSeq_get? n i h).2.2

/-! ## Concrete inputs used by counterexamples and witnesses -/

/-- A planner response proposing three queries. -/
def plannerThreeQueries : String := "\x7b\"queries\": [\"a\", \"b\", \"c\"]\x7d"

/-- A planner response from which nothing is extractable. -/
def noJsonResponse : String := "no json here"

/-- A response holding only a fenced JSON block. -/
def fencedResponse : String := "```json \x7b\"queries\": [\"a\", \"b\"]\x7d ```"

/-- A response with a bare JSON object before a well-formed fenced block. -/
def bareThenFencedResponse : String :=
  "\x7b\"queries\": [\"x\"]\x7d ```json \x7b\"queries\": [\"a\", \"b\"]\x7d ```"

/-! ## Claims -/

/-- Claim C1, counterexample: the claim says the QuerySet the orchestrator
proceeds with has at most 2 entries because the planner truncates the
extracted list to its first 2 entries.  On a planner response proposing three
queries, `planQueries` (the extraction and fallback logic of
`run_parallel_research`, lines 310-345) keeps all three: no truncation exists
in the code. -/
theorem queryset_cap_counterexample :
    ¬ ((planQueries "tariffs" plannerThreeQueries).length ≤ 2) := by decide

/-- Claim C1, amended: the planner performs no truncation at all — whenever
extraction yields a non-empty list, the QuerySet is exactly that list, entry
for entry, so its size equals however many queries the generation call
proposed and is unbounded. -/
theorem planner_no_truncation (goal response : String) (h : extractQueries response ≠ []) :
    planQueries goal response = extractQueries response ∧
    (planQueries goal response).length = (extractQueries response).length := by
  rcases hq : extractQueries response with _ | ⟨a, t⟩
  · exact absurd hq h
  · constructor <;> simp [planQueries, hq]

/-- Claim C1, witness: `planner_no_truncation` applied to the three-query
response. -/
theorem planner_no_truncation_witness :
    extractQueries plannerThreeQueries ≠ [] ∧
    (planQueries "tariffs" plannerThreeQueries = extractQueries plannerThreeQueries ∧
      (planQueries "tariffs" plannerThreeQueries).length =
        (extractQueries plannerThreeQueries).length) := by
  have he : extractQueries plannerThreeQueries =
      [Json.str "a", Json.str "b", Json.str "c"] := rfl
  have hne : extractQueries plannerThreeQueries ≠ [] := by rw [he]; simp
  exact ⟨hne, planner_no_truncation "tariffs" plannerThreeQueries hne⟩

/-- Claim C2: every URL in the final source list comes from an organic entry
whose attached scraped content has `success = true` (lines 94-99 of
web_search_agent.py admit a url only under that check); URLs without a
successful scrape — in particular any URL merely mentioned by the generation
call, which never feeds this list — cannot appear. -/
theorem sources_require_successful_scrape (organic : List OrganicEntry) (u : String)
    (h : u ∈ webSourceUrls organic) :
    ∃ e ∈ organic, ∃ sc, e.scraped_content = some sc ∧ sc.success = true ∧ sc.url = u :=
  mem_collectSuccessUrls organic u (mem_dedupFirstAux _ _ u h)

/-- An entry whose page was scraped successfully. -/
def c2Entry : OrganicEntry :=
  { title := "t", link := "https://a.example", snippet := "s", source := "g", position := 1,
    scraped_content := some { url := "https://a.example", success := true } }

/-- Claim C2, witness: `sources_require_successful_scrape` applied to a
one-entry result set. -/
theorem sources_require_successful_scrape_witness :
    "https://a.example" ∈ webSourceUrls [c2Entry] ∧
    ∃ e ∈ [c2Entry], ∃ sc, e.scraped_content = some sc ∧ sc.success = true ∧
      sc.url = "https://a.example" := by
  have hm : "https://a.example" ∈ webSourceUrls [c2Entry] := by
    show "https://a.example" ∈ ["https://a.example"]
    exact List.mem_singleton.mpr rfl
  exact ⟨hm, sources_require_successful_scrape [c2Entry] "https://a.example" hm⟩

/-- An entry for url `https://b.example`, arriving first. -/
def c3EntryB : OrganicEntry :=
  { link := "https://b.example", position := 1,
    scraped_content := some { url := "https://b.example", success := true } }

/-- An entry for url `https://a.example`, arriving second. -/
def c3EntryA : OrganicEntry :=
  { link := "https://a.example", position := 2,
    scraped_content := some { url := "https://a.example", success := true } }

/-- Claim C3, counterexample: the claim says the final source list is sorted
ascending lexicographically.  `list(dict.fromkeys(urls))` (line 102) keeps
encounter order: when `https://b.example` is scraped before
`https://a.example` the rendered list is `[b, a]`, which is not sorted even
though `a` precedes `b` lexicographically. -/
theorem sources_unsorted_counterexample :
    webSourceUrls [c3EntryB, c3EntryA] = ["https://b.example", "https://a.example"] ∧
    sortedAsc (webSourceUrls [c3EntryB, c3EntryA]) = false ∧
    strLe "https://a.example" "https://b.example" = true := ⟨rfl, rfl, rfl⟩

/-- Claim C3, amended: the final source list contains no duplicate URLs and
preserves first-occurrence (encounter) order — it is a sublist of the
collected url sequence — but it is not sorted. -/
theorem sources_nodup_first_occurrence (organic : List OrganicEntry) :
    (webSourceUrls organic).Nodup ∧
    (webSourceUrls organic).Sublist (collectSuccessUrls organic) :=
  ⟨nodup_dedupFirstAux _ _, sublist_dedupFirstAux _ _⟩

/-- Claim C4, counterexample: the claim says that on zero extracted queries
the QuerySet degrades to exactly one query equal to the goal text.  The code
(lines 338-345) instead installs three fallback queries derived from the
goal, so the degraded QuerySet has length 3, not 1. -/
theorem single_query_fallback_counterexample :
    extractQueries noJsonResponse = [] ∧
    (planQueries "goal" noJsonResponse).length = 3 ∧
    ¬ ((planQueries "goal" noJsonResponse).length = 1) := ⟨rfl, rfl, by decide⟩

/-- Claim C4, amended: when extraction yields zero usable queries the
QuerySet degrades to three queries derived from the goal text — the goal
suffixed with " overview", " analysis" and " impact" — and the degradation is
returned as an ordinary query list, not surfaced as an error. -/
theorem degraded_three_query_fallback (goal response : String)
    (h : extractQueries response = []) :
    planQueries goal response =
      [Json.obj [("query", Json.str (goal ++ " overview"))],
       Json.obj [("query", Json.str (goal ++ " analysis"))],
       Json.obj [("query", Json.str (goal ++ " impact"))]] := by
  simp [planQueries, h, fallbackQueries]

/-- Claim C4, witness: `degraded_three_query_fallback` applied to a response
holding no JSON. -/
theorem degraded_three_query_fallback_witness :
    extractQueries noJsonResponse = [] ∧
    planQueries "goal" noJsonResponse =
      [Json.obj [("query", Json.str ("goal" ++ " overview"))],
       Json.obj [("query", Json.str ("goal" ++ " analysis"))],
       Json.obj [("query", Json.str ("goal" ++ " impact"))]] :=
  ⟨rfl, degraded_three_query_fallback "goal" noJsonResponse rfl⟩

/-- Claim C5: `search_and_scrape` (lines 180-238) is total over every oracle
outcome and its result carries exactly one of `organic` or `error` — the
caller's branch point; and `scrape_url` (lines 141-178) converts every
per-URL failure into a `success = false` record carrying the error message
instead of propagating it. -/
theorem search_and_scrape_never_raises :
    (∀ p f att n,
      ((search_and_scrape p f att n).organic.isSome ∧
        (search_and_scrape p f att n).error = none) ∨
      ((search_and_scrape p f att n).error.isSome ∧
        (search_and_scrape p f att n).organic = none)) ∧
    (∀ url m, scrape_url url (.downloadFail m) =
      { url := url, error := some ("Article processing error: " ++ m), success := false }) ∧
    (∀ url m, scrape_url url (.otherFail m) =
      { url := url, error := some m, success := false }) :=
  ⟨search_and_scrape_shape, fun _ _ => rfl, fun _ _ => rfl⟩

/-- Claim C6: the final response returned by `WebSearchAgent.search` is the
generation output followed by a sources block that is a function of the
search results alone — the generation step cannot fabricate or alter it — and
that block is empty exactly when the deduplicated source list is empty, so a
`## Sources` section is appended only when there is at least one source
(lines 148-151). -/
theorem sources_appended_mechanically (organic : List OrganicEntry) (final_response : String) :
    webSearchCompose organic final_response = final_response ++ sourcesBlock organic ∧
    (sourcesBlock organic = "" ↔ webSourceUrls organic = []) := by
  unfold webSearchCompose sourcesBlock
  by_cases he : (webSourceUrls organic).isEmpty
  · rw [if_pos he, if_pos he]
    refine ⟨by simp, ?_⟩
    simp [List.isEmpty_iff.mp he]
  · rw [if_neg he, if_neg he]
    refine ⟨rfl, ?_, ?_⟩
    · intro hcon
      have hlen := congrArg String.length hcon
      rw [String.length_append] at hlen
      have h13 : (String.length ("\n\n## Sources\n")) = 13 := rfl
      have h0 : String.length "" = 0 := rfl
      rw [h13, h0] at hlen
      omega
    · intro hnil
      rw [hnil] at he
      simp at he

/-- Claim C7: the worker's `search_and_scrape` call runs under an explicit
30-unit timeout (line 92); when the timeout elapses, `searxng_search`
(lines 76-99) returns a placeholder value whose error text extends the query
text — so it contains the query — and carries no organic results (an empty
source contribution), and an exception is likewise converted into a returned
value, so the wrapper never fails the pipeline. -/
theorem worker_timeout_placeholder :
    searxng_search_timeout = 30 ∧
    (∀ q, searxng_search q .timedOut =
      { organic := none, error := some ("Search timeout for query: " ++ q),
        query := some q }) ∧
    (∀ q, ∃ pre, "Search timeout for query: " ++ q = pre ++ q) ∧
    (∀ q m, searxng_search q (.raised m) =
      { organic := none, error := some m, query := some q }) :=
  ⟨rfl, fun _ => rfl, fun _ => ⟨"Search timeout for query: ", rfl⟩, fun _ _ => rfl⟩

/-- Claim C8, counterexample: the claim says the extractor prefers a fenced
JSON block over a bare brace-delimited match and on a failed parse retries on
the whole text.  When a bare `\x7b` precedes the fence, the leftmost-match
rule makes the greedy bare alternative win, its span fails to parse, and no
retry happens: extraction yields `[]` even though the fenced block alone
parses to the two-query list (and does yield it when it is the only match). -/
theorem extractor_leftmost_counterexample :
    extractQueries bareThenFencedResponse = [] ∧
    parseJson ("\x7b\"queries\": [\"a\", \"b\"]\x7d") =
      some (Json.obj [("queries", Json.arr [Json.str "a", Json.str "b"])]) ∧
    extractQueries fencedResponse = [Json.str "a", Json.str "b"] := ⟨rfl, rfl, rfl⟩

/-- Claim C8, amended: the extractor takes the leftmost regex match, trying
the fenced alternative first only position by position, so an earlier bare
brace takes precedence over a later fenced block; when the matched substring
fails to parse or lacks the key it returns the empty list with no whole-text
reparse, and it never raises.  On a lone fenced block
`` ```json \x7b"queries": ["a","b"]\x7d ``` `` it returns `["a","b"]`
exactly; on non-JSON text it returns `[]`. -/
theorem extractor_behavior :
    extractQueries fencedResponse = [Json.str "a", Json.str "b"] ∧
    extractQueries ("it rained all week in the mountains") = [] ∧
    extractQueries bareThenFencedResponse = [] := ⟨rfl, rfl, rfl⟩

/-- Claim C9, counterexample: the claim says the orchestrator runs all
workers concurrently with aggregation only after every worker completes.  In
`run_parallel_research` (lines 347-427) each loop iteration awaits its
worker's run and aggregates its learnings before the next worker is created:
with two queries, worker 0's learnings are aggregated before worker 1 ends,
and worker 1 starts only after worker 0 ends. -/
theorem concurrent_fanout_counterexample :
    researchTrace 2 = [.plan, .workerStart 0, .workerEnd 0, .aggregate 0,
      .workerStart 1, .workerEnd 1, .aggregate 1, .synthesize] ∧
    (researchTrace 2).indexOf (.aggregate 0) < (researchTrace 2).indexOf (.workerEnd 1) ∧
    (researchTrace 2).indexOf (.workerEnd 0) < (researchTrace 2).indexOf (.workerStart 1) :=
  ⟨rfl, by decide, by decide⟩

/-- Claim C9, amended: the pipeline stages are strictly sequential — the
trace opens with the planning call, then for each worker `i` in query order
its start, end and aggregation occupy consecutive slots `3i+1 .. 3i+3` (so
worker `i+1` starts at slot `3i+4`, after worker `i` is aggregated), and the
synthesis call closes the trace; planning still strictly precedes every
search and synthesis strictly follows every aggregation. -/
theorem sequential_worker_order (n i : Nat) (h : i < n) :
    (researchTrace n).length = 3 * n + 2 ∧
    (researchTrace n).get? 0 = some .plan ∧
    (researchTrace n).get? (3 * i + 1) = some (.workerStart i) ∧
    (researchTrace n).get? (3 * i + 2) = some (.workerEnd i) ∧
    (researchTrace n).get? (3 * i + 3) = some (.aggregate i) ∧
    (researchTrace n).get? (3 * n + 1) = some .synthesize := by
  have hg := researchTrace_get? n i h
  refine ⟨?_, hg.1, hg.2.2.1, hg.2.2.2.1, hg.2.2.2.2, hg.2.1⟩
  simp [researchTrace, workerSeq_length]

/-- Claim C9, witness: `sequential_worker_order` applied at two queries,
worker 1. -/
theorem sequential_worker_order_witness :
    1 < 2 ∧
    ((researchTrace 2).length = 3 * 2 + 2 ∧
     (researchTrace 2).get? 0 = some .plan ∧
     (researchTrace 2).get? (3 * 1 + 1) = some (.workerStart 1) ∧
     (researchTrace 2).get? (3 * 1 + 2) = some (.workerEnd 1) ∧
     (researchTrace 2).get? (3 * 1 + 3) = some (.aggregate 1) ∧
     (researchTrace 2).get? (3 * 2 + 1) = some .synthesize) :=
  ⟨by decide, sequential_worker_order 2 1 (by decide)⟩

/-- Claim C10: whenever `search_and_scrape` returns organic entries, every
entry carries a `scraped_content` attached positionally whose url equals the
entry's own link, and that content is `scrape_url`'s record for the link when
the gathered slot ran, or the synthesized `success = false` failure record
carrying the slot's exception message otherwise. -/
theorem scraped_content_positional (p f : AggResponse) (att : Nat → ScrapeAttempt) (n : Nat)
    (entries : List OrganicEntry)
    (h : (search_and_scrape p f att n).organic = some entries)
    (i : Nat) (e : OrganicEntry) (he : entries.get? i = some e) :
    ∃ sc, e.scraped_content = some sc ∧ sc.url = e.link ∧
      (∀ env, att i = .ran env → sc = scrape_url e.link env) ∧
      (∀ m, att i = .exn m → sc = { url := e.link, error := some m, success := false }) := by
  unfold search_and_scrape searchScrapePhase2 at h
  rcases searchSelect_shape p f n with ⟨h1, h2⟩ | ⟨h1, h2⟩
  · rw [h2] at h
    rw [if_neg (by simp)] at h
    rcases hb : (searchSelect p f n).organic with _ | base
    · rw [hb] at h1; simp at h1
    · rw [hb] at h
      by_cases hemp : base.isEmpty
      · have hbase : base = [] := List.isEmpty_iff.mp hemp
        subst hbase
        rw [if_pos (show ((some ([] : List OrganicEntry)).getD []).isEmpty = true from rfl)] at h
        rw [hb] at h
        have : entries = ([] : List OrganicEntry) := by
          have := Option.some.inj h
          exact this.symm
        subst this
        simp at he
      · rw [if_neg (by simpa using hemp)] at h
        have hent : entries = attachScrapes att 0 base := (Option.some.inj h).symm
        subst hent
        rw [attachScrapes_get? att base 0 i] at he
        rcases hbg : base.get? i with _ | b
        · rw [hbg] at he; cases he
        · rw [hbg] at he
          have he2 : { b with scraped_content := some (gatherSlot b.link (att (0 + i))) } = e := by
            simpa using he
          rw [Nat.zero_add] at he2
          refine ⟨gatherSlot b.link (att i), ?_, ?_, ?_, ?_⟩
          · rw [← he2]
          · rw [← he2]
            exact gatherSlot_url b.link (att i)
          · intro env hr
            rw [← he2, hr]
            rfl
          · intro m hr
            rw [← he2, hr]
            rfl
  · rw [if_pos h1, h2] at h
    cases h

/-- Scrape-slot oracle for the witness run: the first scrape runs and
succeeds, the gather slot of the second yields an exception. -/
def c10Att : Nat → ScrapeAttempt :=
  fun i => if i = 0 then .ran (.ok "T" "body" [] none "img") else .exn "task cancelled"

/-- A successful two-row aggregator response. -/
def c10Raw : List RawResult :=
  [{ title := "A", url := "u1", content := "s1", engine := "g" },
   { title := "B", url := "u2", content := "s2", engine := "g" }]

def c10Scraped1 : ScrapedContent :=
  { url := "u1", title := some "T", text := some "body", authors := [],
    publish_date := none, top_image := some "img", success := true }

def c10Scraped2 : ScrapedContent :=
  { url := "u2", error := some "task cancelled", success := false }

def c10E2 : OrganicEntry :=
  { title := "B", link := "u2", snippet := "s2", source := "g", position := 2,
    scraped_content := some c10Scraped2 }

def c10Entries : List OrganicEntry :=
  [{ title := "A", link := "u1", snippet := "s1", source := "g", position := 1,
     scraped_content := some c10Scraped1 },
   c10E2]

/-- Claim C10, witness: `scraped_content_positional` applied to a concrete
two-entry run whose second gather slot was an exception. -/
theorem scraped_content_positional_witness :
    (search_and_scrape (.ok c10Raw) (.ok []) c10Att 30).organic = some c10Entries ∧
    c10Entries.get? 1 = some c10E2 ∧
    (∃ sc, c10E2.scraped_content = some sc ∧ sc.url = c10E2.link ∧
      (∀ env, c10Att 1 = .ran env → sc = scrape_url c10E2.link env) ∧
      (∀ m, c10Att 1 = .exn m → sc =
        { url := c10E2.link, error := some m, success := false })) :=
  ⟨by rfl, by rfl,
    scraped_content_positional (.ok c10Raw) (.ok []) c10Att 30 c10Entries (by rfl) 1 c10E2
      (by rfl)⟩

end ResearchBot
